import Mathlib

/-!
Shallow embedding of the cat-collector web application
(`main_app/models.py`, `main_app/urls.py`, `main_app/views.py`).

The persistent store (the relational database reached through the ORM) is
modelled as an explicit `AppState` value; each request handler from
`views.py` becomes a pure function from its inputs and the current state to
the next state together with the handler's response.  The session user of an
authenticated request is passed explicitly as a `String` (the username): all
handlers the claims concern are wrapped in `login_required` /
`LoginRequiredMixin`, so the functions model the behaviour of the handler
body once that gate has passed.  A failed ORM lookup
(`Model.objects.get(...)` raising `DoesNotExist`, or a generic view raising
`Http404`) is modelled with `Except` / `Option`: the error value stands for
the unhandled exception, under which no database write happens.
-/

namespace CatCollector

/-- The `MEALS` choices tuple from `main_app/models.py`:
`(('B', 'Breakfast'), ('L', 'Lunch'), ('D', 'Dinner'))`. -/
def MEALS : List (String × String) :=
  [("B", "Breakfast"), ("L", "Lunch"), ("D", "Dinner")]

/-- A row of the `Cat` model (`main_app/models.py`): auto primary key `id`,
`name`, `breed`, `description`, integer `age`, and the owning user
(`user = models.ForeignKey(User, on_delete=models.CASCADE)`), identified
here by username.  The `toys` many-to-many field plays no part in the
claims and is omitted. -/
structure Cat where
  id : Nat
  name : String
  breed : String
  description : String
  age : Int
  user : String
deriving DecidableEq

/-- A row of the `Feeding` model (`main_app/models.py`): a `date`
(modelled as a day ordinal), a one-character `meal` code constrained to the
`MEALS` choices, and the owning cat
(`cat = models.ForeignKey(Cat, on_delete=models.CASCADE)`). -/
structure Feeding where
  id : Nat
  date : Nat
  meal : String
  catId : Nat
deriving DecidableEq

/-- The relational store: the framework `User` table (usernames), the `Cat`
and `Feeding` tables, and the auto-increment counters for their primary
keys.  `Toy` rows play no part in the claims and are omitted. -/
structure AppState where
  users : List String
  cats : List Cat
  feedings : List Feeding
  nextCatId : Nat
  nextFeedingId : Nat
deriving DecidableEq

/-- A fresh database: no users, no cats, no feedings. -/
def initialState : AppState := ⟨[], [], [], 0, 0⟩

/-- The responses the modelled handlers produce: the redirect to the cat
list (`success_url = '/cats/'` and `redirect('cat-index')`) and the redirect
to a cat's detail page (`redirect('cat-detail', cat_id=cat_id)`). -/
inductive Response
  | redirectCatIndex
  | redirectCatDetail (catId : Nat)
deriving DecidableEq

/-- The unhandled lookup failure: `Model.objects.get` raising
`DoesNotExist` (or a generic view raising `Http404`), which the application
never catches. -/
inductive LookupError
  | doesNotExist
deriving DecidableEq

/-- `cat_index` (`views.py`): `Cat.objects.filter(user=request.user)` —
the cats listed for the session user `u`. -/
def cat_index (u : String) (s : AppState) : List Cat :=
  s.cats.filter (fun c => c.user == u)

/-- The data a client may submit to the `CatCreate` view.  The form's
fields are `['name', 'breed', 'description', 'age']`; `ownerField` stands
for any owner value the client smuggles into the payload, which no code
path reads. -/
structure CatCreatePayload where
  name : String
  breed : String
  description : String
  age : Int
  ownerField : Option String
deriving DecidableEq

/-- `CatCreate` (`views.py`): a `CreateView` over `Cat` with fields
`name`, `breed`, `description`, `age`; `form_valid` sets
`form.instance.user = self.request.user` before saving, so the persisted
row's owner is the session user and the client's `ownerField` is ignored.
Returns the updated store and the row that was persisted. -/
def cat_create (u : String) (p : CatCreatePayload) (s : AppState) :
    AppState × Cat :=
  let c : Cat := ⟨s.nextCatId, p.name, p.breed, p.description, p.age, u⟩
  ({ s with cats := s.cats ++ [c], nextCatId := s.nextCatId + 1 }, c)

/-- The data a client may submit to the `CatUpdate` view.  The form's
fields are `['breed', 'description', 'age']` — the `name` field is
deliberately excluded; `nameField` stands for any name value the client
submits anyway, which no code path reads. -/
structure CatUpdatePayload where
  nameField : Option String
  breed : String
  description : String
  age : Int
deriving DecidableEq

/-- `CatUpdate` (`views.py`): an `UpdateView` over `Cat` with fields
`['breed', 'description', 'age']` and no owner filter — the object is
fetched by primary key alone, so any session user `u` reaches any cat.
`none` models the `Http404` raised when no cat has primary key `pk`. -/
def cat_update (u : String) (pk : Nat) (p : CatUpdatePayload) (s : AppState) :
    Option AppState :=
  if s.cats.any (fun c => c.id == pk) then
    some { s with
      cats := s.cats.map (fun c =>
        if c.id == pk then
          { c with breed := p.breed, description := p.description, age := p.age }
        else c) }
  else none

/-- `CatDelete` (`views.py`): a `DeleteView` over `Cat` with
`success_url = '/cats/'` and no owner filter.  Deleting the cat cascades to
its `Feeding` rows (`on_delete=models.CASCADE` on `Feeding.cat` in
`models.py`).  `none` models the `Http404` raised when no cat has primary
key `pk`; on success the redirect target is returned with the new store. -/
def cat_delete (u : String) (pk : Nat) (s : AppState) :
    Option (AppState × Response) :=
  if s.cats.any (fun c => c.id == pk) then
    some ({ s with
      cats := s.cats.filter (fun c => c.id != pk),
      feedings := s.feedings.filter (fun f => f.catId != pk) },
      Response.redirectCatIndex)
  else none

/-- `cat_detail` (`views.py`):
`Cat.objects.get(id=cat_id, user=request.user)` — the lookup is
owner-filtered, and a miss raises `DoesNotExist`, which the handler does
not catch. -/
def cat_detail (u : String) (cid : Nat) (s : AppState) :
    Except LookupError Cat :=
  match s.cats.find? (fun c => c.id == cid && c.user == u) with
  | some c => Except.ok c
  | none => Except.error LookupError.doesNotExist

/-- The POST data a client may submit to `add_feeding`: an optional `date`
and an optional `meal` code (`none` models an absent or unparseable
field). -/
structure FeedingPost where
  date : Option Nat
  meal : Option String
deriving DecidableEq

/-- `true` exactly when `m` is one of the `MEALS` codes declared in
`models.py`. -/
def validMealCode (m : String) : Bool :=
  (MEALS.map Prod.fst).contains m

/-- Modelled from the spec: `main_app/forms.py` (the `FeedingForm` that
`views.py` imports) is not among the sources; the spec says the add-feeding
path "Validates the submitted date and meal code" against the declared
constraints.  The cleaned data of the form: present for a parseable date
and a meal code among the `MEALS` choices, absent otherwise. -/
def FeedingPost.clean (p : FeedingPost) : Option (Nat × String) :=
  match p.date, p.meal with
  | some d, some m => if validMealCode m then some (d, m) else none
  | _, _ => none

/-- Modelled from the spec: `form.is_valid()` for the `FeedingForm` — true
exactly when the submitted data cleans. -/
def feedingFormValid (p : FeedingPost) : Bool :=
  (FeedingPost.clean p).isSome

/-- `add_feeding` (`views.py`): fetches the cat with
`Cat.objects.get(id=cat_id, user=request.user)` (owner-filtered; a miss is
the uncaught `DoesNotExist`), then validates `FeedingForm(request.POST)`;
if valid, saves the new feeding with `cat_id` assigned, otherwise persists
nothing.  Either way the handler ends with
`redirect('cat-detail', cat_id=cat_id)`. -/
def add_feeding (u : String) (cid : Nat) (p : FeedingPost) (s : AppState) :
    Except LookupError (AppState × Response) :=
  match s.cats.find? (fun c => c.id == cid && c.user == u) with
  | none => Except.error LookupError.doesNotExist
  | some _ =>
    match FeedingPost.clean p with
    | some (d, m) =>
        Except.ok ({ s with
          feedings := s.feedings ++ [⟨s.nextFeedingId, d, m, cid⟩],
          nextFeedingId := s.nextFeedingId + 1 },
          Response.redirectCatDetail cid)
    | none => Except.ok (s, Response.redirectCatDetail cid)

/-- The default ordering relation of `Feeding.Meta` (`models.py`):
`ordering = ['-date']` — most recent date first, so `a` may precede `b`
exactly when `b.date ≤ a.date`. -/
def dateDesc (a b : Feeding) : Prop := b.date ≤ a.date

instance : DecidableRel dateDesc := fun a b => Nat.decLe b.date a.date

instance : IsTotal Feeding dateDesc :=
  ⟨fun a b => (Nat.le_total a.date b.date).symm⟩

instance : IsTrans Feeding dateDesc :=
  ⟨fun _ _ _ hab hbc => Nat.le_trans hbc hab⟩

/-- The feedings displayed for cat `cid` (`cat.feedings.all()` on the
detail page): the cat's `Feeding` rows under the model's default ordering
`['-date']`. -/
def catFeedings (s : AppState) (cid : Nat) : List Feeding :=
  List.insertionSort dateDesc (s.feedings.filter (fun f => f.catId == cid))

/-- The POST data of the signup form: username and the two password
fields of `UserCreationForm`. -/
structure SignupPost where
  username : String
  password1 : String
  password2 : String
deriving DecidableEq

/-- A `UserCreationForm` instance: `data = none` is the unbound
`UserCreationForm()`, `data = some p` the bound
`UserCreationForm(request.POST)`. -/
structure UCForm where
  data : Option SignupPost
deriving DecidableEq

/-- The per-field validation errors of a `UserCreationForm`, embedding the
framework form's standard rules: username required and not already taken,
password required, and the two password fields must match.  An unbound form
carries no errors. -/
def UCForm.fieldErrors (st : AppState) (f : UCForm) : List String :=
  match f.data with
  | none => []
  | some p =>
      (if p.username = "" then ["username: This field is required."]
       else if st.users.contains p.username then
         ["username: A user with that username already exists."]
       else []) ++
      (if p.password1 = "" then ["password1: This field is required."] else []) ++
      (if p.password2 = p.password1 then []
       else ["password2: The two password fields did not match."])

/-- `form.is_valid()`: a bound form with no field errors; an unbound form
is never valid. -/
def UCForm.isValid (st : AppState) (f : UCForm) : Bool :=
  match f.data with
  | none => false
  | some _ => (UCForm.fieldErrors st f).isEmpty

/-- What the `signup` view answers: on success, `redirect('cat-index')`
with the new user logged in; on failure, a render of `signup.html` whose
context holds a form and the `error_message` string. -/
inductive SignupResult
  | redirectCatIndex (sessionUser : String)
  | render (form : UCForm) (errorMessage : String)
deriving DecidableEq

/-- `signup` (`views.py`), POST branch: binds
`form = UserCreationForm(request.POST)`; if valid, saves the user, logs the
session in and redirects to the cat list.  Otherwise
`error_message = 'Invalid sign up - try again'` is set, and — because the
view unconditionally re-assigns `form = UserCreationForm()` before
rendering — the rendered context holds a fresh unbound form next to the
generic message. -/
def signup (p : SignupPost) (st : AppState) : AppState × SignupResult :=
  if UCForm.isValid st ⟨some p⟩ then
    ({ st with users := p.username :: st.users },
      SignupResult.redirectCatIndex p.username)
  else
    (st, SignupResult.render ⟨none⟩ "Invalid sign up - try again")

/-- The write operations of the HTTP surface, for reasoning about
arbitrary operation sequences.  Each carries the session user it is
invoked under and its payload. -/
inductive Op
  | opSignup (p : SignupPost)
  | opCreateCat (u : String) (p : CatCreatePayload)
  | opUpdateCat (u : String) (pk : Nat) (p : CatUpdatePayload)
  | opDeleteCat (u : String) (pk : Nat)
  | opAddFeeding (u : String) (cid : Nat) (p : FeedingPost)

/-- The store after one request: the handler's new state on success, the
unchanged store when the handler fails with an unhandled lookup error (an
uncaught exception performs no write). -/
def applyOp (s : AppState) (o : Op) : AppState :=
  match o with
  | Op.opSignup p => (signup p s).1
  | Op.opCreateCat u p => (cat_create u p s).1
  | Op.opUpdateCat u pk p =>
      match cat_update u pk p s with
      | some t => t
      | none => s
  | Op.opDeleteCat u pk =>
      match cat_delete u pk s with
      | some r => r.1
      | none => s
  | Op.opAddFeeding u cid p =>
      match add_feeding u cid p s with
      | Except.ok r => r.1
      | Except.error _ => s

/-- The store after a sequence of requests. -/
def runOps (s : AppState) (l : List Op) : AppState :=
  l.foldl applyOp s

/-- Referential integrity of the `Feeding.cat` foreign key: every feeding
row points at an existing cat row. -/
def noOrphans (s : AppState) : Prop :=
  ∀ f ∈ s.feedings, ∃ c ∈ s.cats, c.id = f.catId

end CatCollector

namespace CatCollector

/-- C1: for every user `U` and every Cat `C`, the cat list operation
invoked with `U`'s session returns `C` if and only if `C`'s owner is `U`:
the list contains every Cat owned by `U` and no Cat owned by any other
user. -/
theorem C1_cat_index_owner_iff (u : String) (s : AppState) (c : Cat) :
    c ∈ cat_index u s ↔ c ∈ s.cats ∧ c.user = u := by
  simp [cat_index, List.mem_filter]

/-- C2: for every authenticated user `U` and every submitted cat-create
payload, the persisted Cat's owner is `U`; two payloads that differ only in
a client-supplied owner value produce the same persisted Cat, so the client
cannot influence ownership at creation. -/
theorem C2_create_owner_is_session_user (u : String)
    (p q : CatCreatePayload) (s : AppState)
    (h : p.name = q.name ∧ p.breed = q.breed ∧
      p.description = q.description ∧ p.age = q.age) :
    (cat_create u p s).2.user = u ∧
    (cat_create u p s).1.cats = s.cats ++ [(cat_create u p s).2] ∧
    (cat_create u p s).2 = (cat_create u q s).2 := by
  obtain ⟨h1, h2, h3, h4⟩ := h
  exact ⟨rfl, rfl, by simp [cat_create, h1, h2, h3, h4]⟩

/-- Witness for C2 at a concrete input: the two payloads agree on the form
fields, differ in the smuggled owner value, and the created Cat is owned by
the session user either way. -/
theorem C2_witness :
    ((CatCreatePayload.mk "Whiskers" "Tabby" "cute" 2 (some "mallory")).name =
        (CatCreatePayload.mk "Whiskers" "Tabby" "cute" 2 none).name ∧
      (CatCreatePayload.mk "Whiskers" "Tabby" "cute" 2 (some "mallory")).breed =
        (CatCreatePayload.mk "Whiskers" "Tabby" "cute" 2 none).breed ∧
      (CatCreatePayload.mk "Whiskers" "Tabby" "cute" 2 (some "mallory")).description =
        (CatCreatePayload.mk "Whiskers" "Tabby" "cute" 2 none).description ∧
      (CatCreatePayload.mk "Whiskers" "Tabby" "cute" 2 (some "mallory")).age =
        (CatCreatePayload.mk "Whiskers" "Tabby" "cute" 2 none).age) ∧
    ((cat_create "alice" (CatCreatePayload.mk "Whiskers" "Tabby" "cute" 2 (some "mallory")) initialState).2.user = "alice" ∧
      (cat_create "alice" (CatCreatePayload.mk "Whiskers" "Tabby" "cute" 2 (some "mallory")) initialState).1.cats =
        initialState.cats ++ [(cat_create "alice" (CatCreatePayload.mk "Whiskers" "Tabby" "cute" 2 (some "mallory")) initialState).2] ∧
      (cat_create "alice" (CatCreatePayload.mk "Whiskers" "Tabby" "cute" 2 (some "mallory")) initialState).2 =
        (cat_create "alice" (CatCreatePayload.mk "Whiskers" "Tabby" "cute" 2 none) initialState).2) :=
  ⟨⟨rfl, rfl, rfl, rfl⟩,
    C2_create_owner_is_session_user "alice" _ _ initialState ⟨rfl, rfl, rfl, rfl⟩⟩

/-- C5: for every existing Cat and every update payload, every cat's name
(and id) after the update operation equals its name before it: the `name`
field is excluded from the update form, so update can change only breed,
description, and age. -/
theorem C5_update_preserves_name (u : String) (pk : Nat)
    (p : CatUpdatePayload) (s s' : AppState)
    (h : cat_update u pk p s = some s') :
    s'.cats.map (fun c => (c.id, c.name)) =
      s.cats.map (fun c => (c.id, c.name)) := by
  unfold cat_update at h
  split at h
  · injection h with h
    subst h
    simp only [List.map_map]
    apply List.map_congr_left
    intro a _
    by_cases hid : a.id = pk <;> simp [hid]
  · cases h

/-- Witness for C5 at a concrete input: updating the one cat in the store
succeeds and leaves its id and name untouched. -/
theorem C5_witness :
    cat_update "bob" 1 (CatUpdatePayload.mk (some "NewName") "Siamese" "sleepy" 3)
      (AppState.mk ["alice"] [Cat.mk 1 "Whiskers" "Tabby" "cute" 2 "alice"] [] 2 0) =
      some (AppState.mk ["alice"] [Cat.mk 1 "Whiskers" "Siamese" "sleepy" 3 "alice"] [] 2 0) ∧
    (AppState.mk ["alice"] [Cat.mk 1 "Whiskers" "Siamese" "sleepy" 3 "alice"] [] 2 0).cats.map (fun c => (c.id, c.name)) =
      (AppState.mk ["alice"] [Cat.mk 1 "Whiskers" "Tabby" "cute" 2 "alice"] [] 2 0).cats.map (fun c => (c.id, c.name)) :=
  ⟨rfl, C5_update_preserves_name "bob" 1
    (CatUpdatePayload.mk (some "NewName") "Siamese" "sleepy" 3)
    (AppState.mk ["alice"] [Cat.mk 1 "Whiskers" "Tabby" "cute" 2 "alice"] [] 2 0)
    (AppState.mk ["alice"] [Cat.mk 1 "Whiskers" "Siamese" "sleepy" 3 "alice"] [] 2 0)
    rfl⟩

/-- Helper: every write operation preserves referential integrity of the
`Feeding.cat` foreign key. -/
theorem noOrphans_applyOp (s : AppState) (o : Op) (h : noOrphans s) :
    noOrphans (applyOp s o) := by
  cases o with
  | opSignup p =>
      simp only [applyOp, signup]
      split <;> exact h
  | opCreateCat u p =>
      simp only [applyOp, cat_create]
      intro f hf
      obtain ⟨c, hc, hcid⟩ := h f hf
      exact ⟨c, List.mem_append_left _ hc, hcid⟩
  | opUpdateCat u pk p =>
      simp only [applyOp]
      cases hup : cat_update u pk p s with
      | none => exact h
      | some t =>
          unfold cat_update at hup
          split at hup
          · injection hup with hup
            subst hup
            intro f hf
            obtain ⟨c, hc, hcid⟩ := h f hf
            refine ⟨_, List.mem_map.mpr ⟨c, hc, rfl⟩, ?_⟩
            split <;> exact hcid
          · cases hup
  | opDeleteCat u pk =>
      simp only [applyOp]
      cases hdel : cat_delete u pk s with
      | none => exact h
      | some r =>
          unfold cat_delete at hdel
          split at hdel
          · injection hdel with hdel
            subst hdel
            intro f hf
            have hf' := List.mem_filter.mp hf
            obtain ⟨c, hc, hcid⟩ := h f hf'.1
            refine ⟨c, List.mem_filter.mpr ⟨hc, ?_⟩, hcid⟩
            simpa [hcid] using hf'.2
          · cases hdel
  | opAddFeeding u cid p =>
      simp only [applyOp]
      cases hadd : add_feeding u cid p s with
      | error e => exact h
      | ok r =>
          unfold add_feeding at hadd
          cases hfind : s.cats.find? (fun c => c.id == cid && c.user == u) with
          | none => rw [hfind] at hadd; cases hadd
          | some c0 =>
              rw [hfind] at hadd
              cases hcl : FeedingPost.clean p with
              | none =>
                  rw [hcl] at hadd
                  injection hadd with hadd
                  subst hadd
                  exact h
              | some dm =>
                  obtain ⟨d, m⟩ := dm
                  rw [hcl] at hadd
                  injection hadd with hadd
                  subst hadd
                  intro f hf
                  rcases List.mem_append.mp hf with hf | hf
                  · exact h f hf
                  · have hc0 := List.mem_of_find?_eq_some hfind
                    have hp := List.find?_some hfind
                    simp only [Bool.and_eq_true, beq_iff_eq] at hp
                    simp only [List.mem_singleton] at hf
                    subst hf
                    exact ⟨c0, hc0, hp.1⟩

/-- Helper: referential integrity is preserved along any operation
sequence. -/
theorem noOrphans_runOps (s : AppState) (l : List Op) (h : noOrphans s) :
    noOrphans (runOps s l) := by
  induction l generalizing s with
  | nil => exact h
  | cons o l ih => exact ih _ (noOrphans_applyOp s o h)

/-- Helper: the fresh database has no feeding rows at all. -/
theorem noOrphans_initialState : noOrphans initialState := by
  intro f hf
  exact absurd hf (List.not_mem_nil f)

/-- C3: for every authenticated user `U` and every existing Cat `C`, the
cat update and delete operations invoked by `U` on `C`'s id succeed even
when `U` is not `C`'s owner: update applies the submitted
breed/description/age to the cat with that id, and delete removes it and
redirects to the cat list; neither path applies an owner filter. -/
theorem C3_update_delete_ignore_owner (u : String) (pk : Nat)
    (p : CatUpdatePayload) (s : AppState) (c : Cat)
    (hc : c ∈ s.cats) (hid : c.id = pk) (hown : c.user ≠ u) :
    (∃ s1, cat_update u pk p s = some s1 ∧
      ∀ c1 ∈ s1.cats, c1.id = pk →
        c1.breed = p.breed ∧ c1.description = p.description ∧ c1.age = p.age) ∧
    (∃ s2, cat_delete u pk s = some (s2, Response.redirectCatIndex) ∧
      ∀ c2 ∈ s2.cats, c2.id ≠ pk) := by
  have hany : (s.cats.any (fun c => c.id == pk)) = true := by
    rw [List.any_eq_true]
    exact ⟨c, hc, by simp [hid]⟩
  constructor
  · refine ⟨{ s with cats := s.cats.map (fun c =>
        if c.id == pk then
          { c with breed := p.breed, description := p.description, age := p.age }
        else c) }, ?_, ?_⟩
    · simp [cat_update, hany]
    · intro c1 hc1 hid1
      obtain ⟨c0, _, rfl⟩ := List.mem_map.mp hc1
      by_cases h0 : c0.id = pk <;> simp_all
  · refine ⟨{ s with
        cats := s.cats.filter (fun c => c.id != pk),
        feedings := s.feedings.filter (fun f => f.catId != pk) }, ?_, ?_⟩
    · simp [cat_delete, hany]
    · intro c2 hc2
      have := List.mem_filter.mp hc2
      simpa using this.2

/-- Witness for C3 at a concrete input: session user "bob" updates and
deletes Cat 1 even though it is owned by "alice". -/
theorem C3_witness :
    ((Cat.mk 1 "Whiskers" "Tabby" "cute" 2 "alice") ∈
        (AppState.mk ["alice", "bob"]
          [Cat.mk 1 "Whiskers" "Tabby" "cute" 2 "alice"] [] 2 0).cats ∧
      (Cat.mk 1 "Whiskers" "Tabby" "cute" 2 "alice").id = 1 ∧
      (Cat.mk 1 "Whiskers" "Tabby" "cute" 2 "alice").user ≠ "bob") ∧
    ((∃ s1, cat_update "bob" 1 (CatUpdatePayload.mk none "Siamese" "sleepy" 3)
        (AppState.mk ["alice", "bob"]
          [Cat.mk 1 "Whiskers" "Tabby" "cute" 2 "alice"] [] 2 0) = some s1 ∧
      ∀ c1 ∈ s1.cats, c1.id = 1 →
        c1.breed = "Siamese" ∧ c1.description = "sleepy" ∧ c1.age = 3) ∧
    (∃ s2, cat_delete "bob" 1
        (AppState.mk ["alice", "bob"]
          [Cat.mk 1 "Whiskers" "Tabby" "cute" 2 "alice"] [] 2 0) =
          some (s2, Response.redirectCatIndex) ∧
      ∀ c2 ∈ s2.cats, c2.id ≠ 1)) :=
  ⟨⟨by decide, rfl, by decide⟩,
    C3_update_delete_ignore_owner "bob" 1
      (CatUpdatePayload.mk none "Siamese" "sleepy" 3)
      (AppState.mk ["alice", "bob"]
        [Cat.mk 1 "Whiskers" "Tabby" "cute" 2 "alice"] [] 2 0)
      (Cat.mk 1 "Whiskers" "Tabby" "cute" 2 "alice")
      (by decide) rfl (by decide)⟩

/-- C4: deleting a Cat removes every Feeding row associated with it and
adds none, and after any sequence of operations from the fresh database no
Feeding row points at a missing Cat. -/
theorem C4_delete_cascades_no_orphans (u : String) (pk : Nat)
    (s s' : AppState) (r : Response)
    (hdel : cat_delete u pk s = some (s', r)) (ops : List Op) :
    (∀ f ∈ s.feedings, f.catId = pk → f ∉ s'.feedings) ∧
    (∀ f ∈ s'.feedings, f ∈ s.feedings ∧ f.catId ≠ pk) ∧
    noOrphans (runOps initialState ops) := by
  unfold cat_delete at hdel
  split at hdel
  · injection hdel with hdel
    obtain ⟨hs, -⟩ := Prod.mk.inj hdel
    subst hs
    refine ⟨?_, ?_, noOrphans_runOps initialState ops noOrphans_initialState⟩
    · intro f _ hfp hmem
      have := (List.mem_filter.mp hmem).2
      simp [hfp] at this
    · intro f hf
      have := List.mem_filter.mp hf
      exact ⟨this.1, by simpa using this.2⟩
  · cases hdel

/-- Witness for C4 at a concrete input: deleting Cat 1 removes both of its
feedings, keeps the feeding of Cat 2, and a concrete operation sequence
from the fresh database leaves no orphaned feeding. -/
theorem C4_witness :
    cat_delete "alice" 1
      (AppState.mk ["alice"]
        [Cat.mk 1 "Whiskers" "Tabby" "cute" 2 "alice",
          Cat.mk 2 "Max" "Bengal" "wild" 4 "alice"]
        [Feeding.mk 0 10 "B" 1, Feeding.mk 1 11 "L" 1, Feeding.mk 2 12 "D" 2]
        3 3) =
      some (AppState.mk ["alice"]
        [Cat.mk 2 "Max" "Bengal" "wild" 4 "alice"]
        [Feeding.mk 2 12 "D" 2] 3 3, Response.redirectCatIndex) ∧
    ((∀ f ∈ (AppState.mk ["alice"]
        [Cat.mk 1 "Whiskers" "Tabby" "cute" 2 "alice",
          Cat.mk 2 "Max" "Bengal" "wild" 4 "alice"]
        [Feeding.mk 0 10 "B" 1, Feeding.mk 1 11 "L" 1, Feeding.mk 2 12 "D" 2]
        3 3).feedings, f.catId = 1 →
        f ∉ (AppState.mk ["alice"]
          [Cat.mk 2 "Max" "Bengal" "wild" 4 "alice"]
          [Feeding.mk 2 12 "D" 2] 3 3).feedings) ∧
      (∀ f ∈ (AppState.mk ["alice"]
          [Cat.mk 2 "Max" "Bengal" "wild" 4 "alice"]
          [Feeding.mk 2 12 "D" 2] 3 3).feedings,
        f ∈ (AppState.mk ["alice"]
          [Cat.mk 1 "Whiskers" "Tabby" "cute" 2 "alice",
            Cat.mk 2 "Max" "Bengal" "wild" 4 "alice"]
          [Feeding.mk 0 10 "B" 1, Feeding.mk 1 11 "L" 1, Feeding.mk 2 12 "D" 2]
          3 3).feedings ∧ f.catId ≠ 1) ∧
      noOrphans (runOps initialState
        [Op.opSignup (SignupPost.mk "alice" "pw" "pw"),
          Op.opCreateCat "alice" (CatCreatePayload.mk "Whiskers" "Tabby" "cute" 2 none),
          Op.opAddFeeding "alice" 0 (FeedingPost.mk (some 10) (some "B")),
          Op.opDeleteCat "alice" 0])) :=
  ⟨rfl, C4_delete_cascades_no_orphans "alice" 1
    (AppState.mk ["alice"]
      [Cat.mk 1 "Whiskers" "Tabby" "cute" 2 "alice",
        Cat.mk 2 "Max" "Bengal" "wild" 4 "alice"]
      [Feeding.mk 0 10 "B" 1, Feeding.mk 1 11 "L" 1, Feeding.mk 2 12 "D" 2]
      3 3)
    (AppState.mk ["alice"]
      [Cat.mk 2 "Max" "Bengal" "wild" 4 "alice"]
      [Feeding.mk 2 12 "D" 2] 3 3)
    Response.redirectCatIndex rfl
    [Op.opSignup (SignupPost.mk "alice" "pw" "pw"),
      Op.opCreateCat "alice" (CatCreatePayload.mk "Whiskers" "Tabby" "cute" 2 none),
      Op.opAddFeeding "alice" 0 (FeedingPost.mk (some 10) (some "B")),
      Op.opDeleteCat "alice" 0]⟩

/-- C6: for a Cat owned by the requesting user, an add-feeding submission
whose form data fails validation creates no Feeding row and answers a
redirect to that cat's detail page, surfacing no error: the persisted
state in the response is the unchanged input state. -/
theorem C6_invalid_feeding_is_swallowed (u : String) (cid : Nat)
    (p : FeedingPost) (s : AppState) (c : Cat)
    (hc : s.cats.find? (fun c => c.id == cid && c.user == u) = some c)
    (hinv : feedingFormValid p = false) :
    add_feeding u cid p s = Except.ok (s, Response.redirectCatDetail cid) := by
  have hcl : FeedingPost.clean p = none := by
    cases hcln : FeedingPost.clean p with
    | none => rfl
    | some v => simp [feedingFormValid, hcln] at hinv
  unfold add_feeding
  rw [hc, hcl]

/-- Witness for C6 at a concrete input: "alice" posts an invalid meal code
"X" for her own Cat 1; nothing is persisted and the response is the
redirect to Cat 1's detail page. -/
theorem C6_witness :
    ((AppState.mk ["alice"] [Cat.mk 1 "Whiskers" "Tabby" "cute" 2 "alice"]
        [] 2 0).cats.find?
        (fun c => c.id == 1 && c.user == "alice") =
      some (Cat.mk 1 "Whiskers" "Tabby" "cute" 2 "alice") ∧
      feedingFormValid (FeedingPost.mk (some 10) (some "X")) = false) ∧
    add_feeding "alice" 1 (FeedingPost.mk (some 10) (some "X"))
      (AppState.mk ["alice"] [Cat.mk 1 "Whiskers" "Tabby" "cute" 2 "alice"]
        [] 2 0) =
      Except.ok ((AppState.mk ["alice"]
        [Cat.mk 1 "Whiskers" "Tabby" "cute" 2 "alice"] [] 2 0),
        Response.redirectCatDetail 1) :=
  ⟨⟨rfl, rfl⟩, C6_invalid_feeding_is_swallowed "alice" 1
    (FeedingPost.mk (some 10) (some "X"))
    (AppState.mk ["alice"] [Cat.mk 1 "Whiskers" "Tabby" "cute" 2 "alice"] [] 2 0)
    (Cat.mk 1 "Whiskers" "Tabby" "cute" 2 "alice") rfl rfl⟩

/-- C7: when no Cat with the requested id is owned by the session user
(the id is missing or the cat belongs to someone else), `cat_detail` and
`add_feeding` fail with the unhandled record-lookup error, and the failed
add-feeding request persists nothing. -/
theorem C7_unowned_lookup_fails (u : String) (cid : Nat) (p : FeedingPost)
    (s : AppState) (h : ∀ c ∈ s.cats, c.id = cid → c.user ≠ u) :
    cat_detail u cid s = Except.error LookupError.doesNotExist ∧
    add_feeding u cid p s = Except.error LookupError.doesNotExist ∧
    applyOp s (Op.opAddFeeding u cid p) = s := by
  have hfind : s.cats.find? (fun c => c.id == cid && c.user == u) = none := by
    rw [List.find?_eq_none]
    intro c hc
    simp only [Bool.and_eq_true, beq_iff_eq, not_and]
    exact fun hid => h c hc hid
  have h2 : add_feeding u cid p s = Except.error LookupError.doesNotExist := by
    unfold add_feeding
    rw [hfind]
  refine ⟨?_, h2, ?_⟩
  · unfold cat_detail
    rw [hfind]
  · simp [applyOp, h2]

/-- Witness for C7 at a concrete input: Cat 1 is owned by "alice", so
"bob"'s detail and add-feeding requests for id 1 hit the uncaught lookup
error and change nothing. -/
theorem C7_witness :
    (∀ c ∈ (AppState.mk ["alice", "bob"]
        [Cat.mk 1 "Whiskers" "Tabby" "cute" 2 "alice"] [] 2 0).cats,
      c.id = 1 → c.user ≠ "bob") ∧
    (cat_detail "bob" 1 (AppState.mk ["alice", "bob"]
        [Cat.mk 1 "Whiskers" "Tabby" "cute" 2 "alice"] [] 2 0) =
      Except.error LookupError.doesNotExist ∧
    add_feeding "bob" 1 (FeedingPost.mk (some 10) (some "B"))
      (AppState.mk ["alice", "bob"]
        [Cat.mk 1 "Whiskers" "Tabby" "cute" 2 "alice"] [] 2 0) =
      Except.error LookupError.doesNotExist ∧
    applyOp (AppState.mk ["alice", "bob"]
        [Cat.mk 1 "Whiskers" "Tabby" "cute" 2 "alice"] [] 2 0)
      (Op.opAddFeeding "bob" 1 (FeedingPost.mk (some 10) (some "B"))) =
      AppState.mk ["alice", "bob"]
        [Cat.mk 1 "Whiskers" "Tabby" "cute" 2 "alice"] [] 2 0) :=
  ⟨by decide, C7_unowned_lookup_fails "bob" 1 (FeedingPost.mk (some 10) (some "B"))
    (AppState.mk ["alice", "bob"]
      [Cat.mk 1 "Whiskers" "Tabby" "cute" 2 "alice"] [] 2 0)
    (by decide)⟩

/-- C8: the feedings listed for a cat are its Feeding rows arranged by
date descending — in the listing, any element appearing after another has
a date less than or equal to it, so a feeding with a later date appears
before every feeding with an earlier date; and the listing is a
permutation of exactly the cat's rows. -/
theorem C8_feedings_most_recent_first (s : AppState) (cid : Nat) :
    List.Sorted dateDesc (catFeedings s cid) ∧
    (catFeedings s cid).Perm (s.feedings.filter (fun f => f.catId == cid)) :=
  ⟨List.sorted_insertionSort dateDesc _, List.perm_insertionSort dateDesc _⟩

/-- C9: a signup POST that fails validation (for example mismatched
password-confirmation fields) creates no User record and redisplays the
signup form with the generic error text "Invalid sign up - try again". -/
theorem C9_signup_invalid_generic_error (p : SignupPost) (st : AppState)
    (h : UCForm.isValid st ⟨some p⟩ = false) :
    (signup p st).1 = st ∧
    (signup p st).2 =
      SignupResult.render ⟨none⟩ "Invalid sign up - try again" := by
  simp [signup, h]

/-- Witness for C9 at a concrete input: mismatched password fields leave
the store unchanged and render the generic message. -/
theorem C9_witness :
    UCForm.isValid initialState ⟨some (SignupPost.mk "alice" "pw1" "pw2")⟩ = false ∧
    ((signup (SignupPost.mk "alice" "pw1" "pw2") initialState).1 = initialState ∧
      (signup (SignupPost.mk "alice" "pw1" "pw2") initialState).2 =
        SignupResult.render ⟨none⟩ "Invalid sign up - try again") :=
  ⟨rfl, C9_signup_invalid_generic_error (SignupPost.mk "alice" "pw1" "pw2")
    initialState rfl⟩

/-- C10: on a failed signup POST the rendered form is a freshly
constructed unbound form — it holds none of the submitted field values and
carries no per-field errors, so the generic string is the only failure
information in the response context. -/
theorem C10_failed_signup_renders_unbound_form (p : SignupPost)
    (st : AppState) (h : UCForm.isValid st ⟨some p⟩ = false) :
    ∃ f : UCForm,
      (signup p st).2 = SignupResult.render f "Invalid sign up - try again" ∧
      f.data = none ∧ UCForm.fieldErrors st f = [] := by
  refine ⟨⟨none⟩, ?_, rfl, rfl⟩
  simp [signup, h]

/-- Witness for C10 at a concrete input: a mismatched-password submission
renders a form with no data and no field errors. -/
theorem C10_witness :
    UCForm.isValid initialState ⟨some (SignupPost.mk "bob" "aa" "bb")⟩ = false ∧
    (∃ f : UCForm,
      (signup (SignupPost.mk "bob" "aa" "bb") initialState).2 =
        SignupResult.render f "Invalid sign up - try again" ∧
      f.data = none ∧ UCForm.fieldErrors initialState f = []) :=
  ⟨rfl, C10_failed_signup_renders_unbound_form (SignupPost.mk "bob" "aa" "bb")
    initialState rfl⟩

end CatCollector
